import Mathlib

/-!
Verification of the monthly solar-savings simulation engine.

Shallow embedding of `src/main.py` (function `simular_solar` and its local
tables) over exact rationals.  Machine floats of the source are modelled as
`ℚ`; Python `round(x, k)` (used only for the display columns of the record)
is modelled as round-half-up on exact rationals (`pyround`), a presentational
abstraction — no property below depends on tie direction.  The `"Mês/Ano"`
string column is pure formatting and is not modelled.
-/

/-- Python `round(x, k)` for the record columns: round to `k` decimal places
(half-up on exact rationals). -/
def pyround (k : ℕ) (x : ℚ) : ℚ := (⌊x * 10 ^ k + 1 / 2⌋ : ℚ) / 10 ^ k

/-- `sazonalidade_mensal` table from `simular_solar` (main.py lines 46-59):
generation multiplier per calendar month 1..12 (Florianópolis insolation).
Any other key would be a Python `KeyError`; the catch-all `0` branch is
unreachable because `mes_do_ano` is always in 1..12. -/
def sazonalidade_mensal : ℕ → ℚ
  | 1 => 1.25
  | 2 => 1.20
  | 3 => 1.10
  | 4 => 0.90
  | 5 => 0.75
  | 6 => 0.70
  | 7 => 0.75
  | 8 => 0.85
  | 9 => 0.95
  | 10 => 1.05
  | 11 => 1.15
  | 12 => 1.25
  | _ => 0

/-- `pagamento_fioB` table from `simular_solar` (main.py lines 38-41) together
with the lookup `pagamento_fioB.get(ano, 1.00)` of line 88: fraction of the
Fio B wire fee charged per calendar year, defaulting to 1.00 off-table. -/
def pagamento_fioB (ano : ℤ) : ℚ :=
  if ano = 2026 then 0.60
  else if ano = 2027 then 0.75
  else if ano = 2028 then 0.90
  else if ano = 2029 then 1.00
  else if ano = 2030 then 1.00
  else if ano = 2031 then 1.00
  else 1.00

/-- The parameter record of `simular_solar` (main.py lines 4-17). -/
structure SimParams where
  tarifa_inicial : ℚ
  fio_b_inicial : ℚ
  geracao_mensal_media : ℚ
  consumo_mensal : ℚ
  perc_autoconsumo : ℚ
  valor_parcela : ℚ
  meses_financiamento : ℤ
  anos_simulacao : ℤ
  reajuste_anual : ℚ
  custo_manutencao_anual : ℚ
  degradacao_anual : ℚ
  ano_inicial : ℤ
  usar_sazonalidade : Bool
deriving DecidableEq

/-- The default argument values of the `simular_solar` signature
(main.py lines 4-17).  Note `usar_sazonalidade=True` there. -/
def defaultParams : SimParams where
  tarifa_inicial := 0.973
  fio_b_inicial := 0.69568
  geracao_mensal_media := 1346.64
  consumo_mensal := 1237.17
  perc_autoconsumo := 0.20
  valor_parcela := 750
  meses_financiamento := 72
  anos_simulacao := 10
  reajuste_anual := 0.10
  custo_manutencao_anual := 750
  degradacao_anual := 0.005
  ano_inicial := 2026
  usar_sazonalidade := true

/-- Default of the `--sazonalidade` CLI flag in `main()` (main.py line 272):
`action="store_true"`, so the flag is `False` when not passed. -/
def cli_usar_sazonalidade_default : Bool := false

/-- The mutable loop state of `simular_solar`: current tariff, current Fio B
fee and the credit-ledger balance (main.py lines 62, 65-66). -/
structure SimState where
  tarifa : ℚ
  fio_b : ℚ
  saldo_creditos : ℚ
deriving DecidableEq

/-- One row of the output DataFrame (main.py lines 124-138), with the same
rounding as the source; `parcela` is stored unrounded there. -/
structure MonthlyRecord where
  mes : ℕ
  ano : ℤ
  geracao : ℚ
  consumo : ℚ
  saldo_creditos : ℚ
  tarifa : ℚ
  preco_credito : ℚ
  economia : ℚ
  compra_rede : ℚ
  parcela : ℚ
  manutencao : ℚ
  fluxo_liquido : ℚ
deriving DecidableEq

/-- `anos_passados = (mes - 1) // 12` (main.py line 70). -/
def anos_passados (mes : ℕ) : ℕ := (mes - 1) / 12

/-- `ano = ano_inicial + (mes - 1) // 12` (main.py line 69). -/
def ano_of (P : SimParams) (mes : ℕ) : ℤ := P.ano_inicial + anos_passados mes

/-- `mes_do_ano = ((mes - 1) % 12) + 1` (main.py line 71). -/
def mes_do_ano (mes : ℕ) : ℕ := (mes - 1) % 12 + 1

/-- Tariff for month `mes` given the state at entry of the month: escalated
when `mes > 1 and (mes - 1) % 12 == 0` (main.py lines 74-75). -/
def tarifa_m (P : SimParams) (s : SimState) (mes : ℕ) : ℚ :=
  if 1 < mes ∧ (mes - 1) % 12 = 0 then s.tarifa * (1 + P.reajuste_anual) else s.tarifa

/-- Fio B fee for month `mes`, escalated at the same boundary
(main.py lines 74, 76). -/
def fio_b_m (P : SimParams) (s : SimState) (mes : ℕ) : ℚ :=
  if 1 < mes ∧ (mes - 1) % 12 = 0 then s.fio_b * (1 + P.reajuste_anual) else s.fio_b

/-- `geracao_base = geracao_mensal_media * (1 - degradacao_anual) ** anos_passados`
(main.py line 79). -/
def geracao_base (P : SimParams) (mes : ℕ) : ℚ :=
  P.geracao_mensal_media * (1 - P.degradacao_anual) ^ anos_passados mes

/-- Month generation with optional seasonality (main.py lines 81-85). -/
def geracao_mensal (P : SimParams) (mes : ℕ) : ℚ :=
  if P.usar_sazonalidade then geracao_base P mes * sazonalidade_mensal (mes_do_ano mes)
  else geracao_base P mes

/-- `auto_consumo = consumo_mensal * perc_autoconsumo` (main.py line 94);
not capped by the month's generation. -/
def auto_consumo (P : SimParams) : ℚ := P.consumo_mensal * P.perc_autoconsumo

/-- `consumo_rede = consumo_mensal - auto_consumo` (main.py line 95). -/
def consumo_rede (P : SimParams) : ℚ := P.consumo_mensal - auto_consumo P

/-- `energia_injetada = max(0, geracao_mensal - auto_consumo)` (main.py line 98). -/
def energia_injetada (P : SimParams) (mes : ℕ) : ℚ :=
  max 0 (geracao_mensal P mes - auto_consumo P)

/-- `preco_credito = tarifa - fio_b * p_fio_b` (main.py lines 88, 91). -/
def preco_credito_m (P : SimParams) (s : SimState) (mes : ℕ) : ℚ :=
  tarifa_m P s mes - fio_b_m P s mes * pagamento_fioB (ano_of P mes)

/-- `energia_compensada = min(consumo_rede, saldo_creditos)` evaluated after the
month's injection has been credited (main.py lines 101, 104). -/
def energia_compensada_m (P : SimParams) (s : SimState) (mes : ℕ) : ℚ :=
  min (consumo_rede P) (s.saldo_creditos + energia_injetada P mes)

/-- Ledger balance after the month: credit the injection, then subtract the
compensated energy (main.py lines 101, 105). -/
def saldo_apos (P : SimParams) (s : SimState) (mes : ℕ) : ℚ :=
  s.saldo_creditos + energia_injetada P mes - energia_compensada_m P s mes

/-- `energia_comprada_rede = consumo_rede - energia_compensada` (main.py line 108). -/
def energia_comprada_m (P : SimParams) (s : SimState) (mes : ℕ) : ℚ :=
  consumo_rede P - energia_compensada_m P s mes

/-- `economia = auto_consumo * tarifa + energia_compensada * preco_credito`
(main.py line 113). -/
def economia_m (P : SimParams) (s : SimState) (mes : ℕ) : ℚ :=
  auto_consumo P * tarifa_m P s mes + energia_compensada_m P s mes * preco_credito_m P s mes

/-- `parcela = valor_parcela if mes <= meses_financiamento else 0` (main.py line 119). -/
def parcela_m (P : SimParams) (mes : ℕ) : ℚ :=
  if (mes : ℤ) ≤ P.meses_financiamento then P.valor_parcela else 0

/-- `fluxo_liquido = economia - parcela - custo_manutencao_mensal - custo_energia_rede`
(main.py lines 61, 116, 122). -/
def fluxo_m (P : SimParams) (s : SimState) (mes : ℕ) : ℚ :=
  economia_m P s mes - parcela_m P mes - P.custo_manutencao_anual / 12
    - energia_comprada_m P s mes * tarifa_m P s mes

/-- One iteration of the `for mes in range(1, anos_simulacao * 12 + 1)` loop
(main.py lines 68-138): new state and the appended row. -/
def simStep (P : SimParams) (s : SimState) (mes : ℕ) : SimState × MonthlyRecord :=
  (⟨tarifa_m P s mes, fio_b_m P s mes, saldo_apos P s mes⟩,
   ⟨mes, ano_of P mes,
    pyround 2 (geracao_mensal P mes),
    pyround 2 P.consumo_mensal,
    pyround 2 (saldo_apos P s mes),
    pyround 3 (tarifa_m P s mes),
    pyround 3 (preco_credito_m P s mes),
    pyround 2 (economia_m P s mes),
    pyround 2 (energia_comprada_m P s mes * tarifa_m P s mes),
    parcela_m P mes,
    pyround 2 (P.custo_manutencao_anual / 12),
    pyround 2 (fluxo_m P s mes)⟩)

/-- Run `k` consecutive loop iterations starting at month `mes` from state `s`,
returning the final state and the rows in chronological order. -/
def runAux (P : SimParams) : SimState → ℕ → ℕ → SimState × List MonthlyRecord
  | _s, _mes, 0 => (_s, [])
  | s, mes, k + 1 =>
      let rest := runAux P (simStep P s mes).1 (mes + 1) k
      (rest.1, (simStep P s mes).2 :: rest.2)

/-- Initial loop state (main.py lines 62, 65-66). -/
def initState (P : SimParams) : SimState :=
  ⟨P.tarifa_inicial, P.fio_b_inicial, 0⟩

/-- The record sequence produced by `simular_solar`: the loop runs over months
`1 .. anos_simulacao * 12` (main.py line 68); an empty range yields no rows. -/
def simular_solar (P : SimParams) : List MonthlyRecord :=
  (runAux P (initState P) 1 (P.anos_simulacao * 12).toNat).2

/-- Loop state after the first `m` months (months `1 .. m` processed). -/
def stateAfter (P : SimParams) (m : ℕ) : SimState :=
  (runAux P (initState P) 1 m).1

/-- Running-sum helper: `cumsumAux acc l` lists the partial sums of `l`
continued from `acc`. -/
def cumsumAux (acc : ℚ) : List ℚ → List ℚ
  | [] => []
  | x :: xs => (acc + x) :: cumsumAux (acc + x) xs

/-- `pandas.Series.cumsum` on a rational column. -/
def cumsum (l : List ℚ) : List ℚ := cumsumAux 0 l

/-- The `"Fluxo líquido (R$)"` column of the DataFrame (main.py line 137). -/
def fluxoColumn (P : SimParams) : List ℚ :=
  (simular_solar P).map (fun r => r.fluxo_liquido)

/-- The `"Acumulado (R$)"` column: cumulative sum of the net-cash-flow column
(main.py line 141). -/
def acumuladoColumn (P : SimParams) : List ℚ := cumsum (fluxoColumn P)

/-- `simular_solar` including its post-loop DataFrame step: with an empty row
list (`anos_simulacao <= 0`) the source raises a pandas `KeyError` on the
missing column at line 141; otherwise it returns the rows plus the cumulative
column.  The source performs no parameter validation anywhere. -/
def simular_solar_result (P : SimParams) :
    Except String (List MonthlyRecord × List ℚ) :=
  if (simular_solar P).isEmpty then Except.error "KeyError: Fluxo liquido (R$)"
  else Except.ok (simular_solar P, acumuladoColumn P)

/-- Modelled from the spec: `calcular_parcela_price` is imported from `main`
by src/app.py (line 70) and called there (line 71), but its definition is not
under src/.  Per spec §4.1 (AmortizationCalculator): `principal <= 0` gives 0;
then `termMonths <= 0` fails with `InvalidParameter`; then `monthlyRate == 0`
gives `principal / termMonths`; otherwise the Price fixed-installment formula
`principal * monthlyRate / (1 - (1 + monthlyRate) ** (-termMonths))`. -/
def calcular_parcela_price (principal taxa_mensal : ℚ) (n_meses : ℤ) :
    Except String ℚ :=
  if principal ≤ 0 then Except.ok 0
  else if n_meses ≤ 0 then Except.error "InvalidParameter"
  else if taxa_mensal = 0 then Except.ok (principal / (n_meses : ℚ))
  else Except.ok (principal * taxa_mensal / (1 - (1 + taxa_mensal) ^ (-n_meses)))

/-- Modelled from the spec: the engine variant taking a down payment
(`entrada`) that src/app.py consumes as the `"Acumulado com entrada (R$)"`
column (app.py lines 162, 182, 210) is not under src/ — src/main.py's
`simular_solar` accepts no `entrada`.  Per the spec, the column is the running
cumulative minus the constant down payment, for every month. -/
def acumuladoComEntrada (P : SimParams) (entrada : ℚ) : List ℚ :=
  (acumuladoColumn P).map (fun x => x - entrada)

/-! ### Concrete parameter records used as evaluation points -/

/-- A minimal valid scenario: 1-year horizon, 1-month financing of 750,
everything else zero, seasonality off. -/
def P6 : SimParams where
  tarifa_inicial := 0
  fio_b_inicial := 0
  geracao_mensal_media := 0
  consumo_mensal := 0
  perc_autoconsumo := 0
  valor_parcela := 750
  meses_financiamento := 1
  anos_simulacao := 1
  reajuste_anual := 0
  custo_manutencao_anual := 0
  degradacao_anual := 0
  ano_inicial := 2026
  usar_sazonalidade := false

/-- An invalid parameter record: self-consumption fraction 2 lies outside
[0,1]; 1-year horizon, everything else zero. -/
def Pbad : SimParams where
  tarifa_inicial := 0
  fio_b_inicial := 0
  geracao_mensal_media := 0
  consumo_mensal := 1
  perc_autoconsumo := 2
  valor_parcela := 0
  meses_financiamento := 0
  anos_simulacao := 1
  reajuste_anual := 0
  custo_manutencao_anual := 0
  degradacao_anual := 0
  ano_inicial := 2026
  usar_sazonalidade := false

/-- Negative initial tariff with escalation rate 1 (≥ 0). -/
def Pneg : SimParams where
  tarifa_inicial := -1
  fio_b_inicial := 0
  geracao_mensal_media := 0
  consumo_mensal := 0
  perc_autoconsumo := 0
  valor_parcela := 0
  meses_financiamento := 0
  anos_simulacao := 2
  reajuste_anual := 1
  custo_manutencao_anual := 0
  degradacao_anual := 0
  ano_inicial := 2026
  usar_sazonalidade := false

/-- A scenario whose generation (0) is below its self-consumed energy
(100 * 0.5 = 50). -/
def P10 : SimParams where
  tarifa_inicial := 1
  fio_b_inicial := 0
  geracao_mensal_media := 0
  consumo_mensal := 100
  perc_autoconsumo := 0.5
  valor_parcela := 0
  meses_financiamento := 0
  anos_simulacao := 1
  reajuste_anual := 0
  custo_manutencao_anual := 0
  degradacao_anual := 0
  ano_inicial := 2026
  usar_sazonalidade := false

/-! ### Helper lemmas about the loop -/

/-- The loop emits exactly one record per iteration. -/
theorem runAux_length (P : SimParams) (k : ℕ) :
    ∀ (s : SimState) (mes : ℕ), (runAux P s mes k).2.length = k := by
  induction k with
  | zero => intro s mes; rfl
  | succ k ih => intro s mes; simp [runAux, ih]

/-- The output has one record per simulated month. -/
theorem simular_solar_length (P : SimParams) :
    (simular_solar P).length = (P.anos_simulacao * 12).toNat :=
  runAux_length P _ _ _

/-- Peeling the last iteration off a `runAux` block. -/
theorem runAux_fst_succ (P : SimParams) (k : ℕ) :
    ∀ (s : SimState) (mes : ℕ),
      (runAux P s mes (k + 1)).1 = (simStep P (runAux P s mes k).1 (mes + k)).1 := by
  induction k with
  | zero => intro s mes; rfl
  | succ k ih =>
      intro s mes
      show (runAux P (simStep P s mes).1 (mes + 1) (k + 1)).1 = _
      rw [ih]
      have h1 : mes + 1 + k = mes + (k + 1) := by omega
      rw [h1]
      rfl

/-- The state after `m + 1` months comes from the state after `m` months by
one loop iteration at month `m + 1`. -/
theorem stateAfter_succ (P : SimParams) (m : ℕ) :
    stateAfter P (m + 1) = (simStep P (stateAfter P m) (m + 1)).1 := by
  have h := runAux_fst_succ P m (initState P) 1
  rw [Nat.add_comm 1 m] at h
  exact h

/-- The ledger balance is non-negative after any number of months. -/
theorem stateAfter_saldo_nonneg (P : SimParams) (m : ℕ) :
    0 ≤ (stateAfter P m).saldo_creditos := by
  cases m with
  | zero => exact le_refl 0
  | succ m =>
      rw [stateAfter_succ]
      show 0 ≤ saldo_apos P (stateAfter P m) (m + 1)
      unfold saldo_apos energia_compensada_m
      have h := min_le_right (consumo_rede P)
        ((stateAfter P m).saldo_creditos + energia_injetada P (m + 1))
      linarith

/-- Closed form of the tariff: the initial tariff escalated once per completed
simulated year. -/
theorem stateAfter_tarifa (P : SimParams) (m : ℕ) :
    (stateAfter P m).tarifa =
      P.tarifa_inicial * (1 + P.reajuste_anual) ^ ((m - 1) / 12) := by
  induction m with
  | zero => show P.tarifa_inicial = _; simp
  | succ m ih =>
      rw [stateAfter_succ]
      show tarifa_m P (stateAfter P m) (m + 1) = _
      unfold tarifa_m
      rw [ih]
      by_cases h : 1 < m + 1 ∧ (m + 1 - 1) % 12 = 0
      · rw [if_pos h]
        have he : (m + 1 - 1) / 12 = (m - 1) / 12 + 1 := by omega
        rw [he, pow_succ]
        ring
      · rw [if_neg h]
        have he : (m + 1 - 1) / 12 = (m - 1) / 12 := by omega
        rw [he]

/-- Closed form of the Fio B fee, escalated at the same boundaries. -/
theorem stateAfter_fio_b (P : SimParams) (m : ℕ) :
    (stateAfter P m).fio_b =
      P.fio_b_inicial * (1 + P.reajuste_anual) ^ ((m - 1) / 12) := by
  induction m with
  | zero => show P.fio_b_inicial = _; simp
  | succ m ih =>
      rw [stateAfter_succ]
      show fio_b_m P (stateAfter P m) (m + 1) = _
      unfold fio_b_m
      rw [ih]
      by_cases h : 1 < m + 1 ∧ (m + 1 - 1) % 12 = 0
      · rw [if_pos h]
        have he : (m + 1 - 1) / 12 = (m - 1) / 12 + 1 := by omega
        rw [he, pow_succ]
        ring
      · rw [if_neg h]
        have he : (m + 1 - 1) / 12 = (m - 1) / 12 := by omega
        rw [he]

/-- The last partial sum of a non-empty column is its offset plus its total. -/
theorem cumsumAux_getLast (l : List ℚ) :
    ∀ acc : ℚ, l ≠ [] → (cumsumAux acc l).getLast? = some (acc + l.sum) := by
  induction l with
  | nil => intro acc h; exact absurd rfl h
  | cons x t ih =>
      intro acc h
      cases t with
      | nil => simp [cumsumAux]
      | cons y u =>
          have ht := ih (acc + x) (by simp)
          show ((acc + x) :: ((acc + x + y) :: cumsumAux (acc + x + y) u)).getLast? = _
          rw [List.getLast?_cons_cons]
          rw [show ((acc + x + y) :: cumsumAux (acc + x + y) u) = cumsumAux (acc + x) (y :: u)
            from rfl]
          rw [ht]
          congr 1
          simp only [List.sum_cons]
          ring

/-- Every emitted record carries the installment dictated by its own month
field. -/
theorem mem_runAux_parcela (P : SimParams) (k : ℕ) :
    ∀ (s : SimState) (mes : ℕ) (r : MonthlyRecord),
      r ∈ (runAux P s mes k).2 → r.parcela = parcela_m P r.mes := by
  induction k with
  | zero => intro s mes r h; simp [runAux] at h
  | succ k ih =>
      intro s mes r h
      rw [show (runAux P s mes (k + 1)).2
          = (simStep P s mes).2 :: (runAux P (simStep P s mes).1 (mes + 1) k).2 from rfl] at h
      rcases List.mem_cons.mp h with h | h
      · subst h; rfl
      · exact ih _ _ r h

/-! ### Claim theorems -/

/-- Claim C1: the loan-installment function returns 0 for principal ≤ 0, fails
with `InvalidParameter` for term ≤ 0, returns principal/term for zero rate and
otherwise the Price fixed-installment formula. -/
theorem C1_parcela_price_contract (p r : ℚ) (n : ℤ) :
    (p ≤ 0 → calcular_parcela_price p r n = Except.ok 0) ∧
    (0 < p → n ≤ 0 → calcular_parcela_price p r n = Except.error "InvalidParameter") ∧
    (0 < p → 0 < n → r = 0 → calcular_parcela_price p r n = Except.ok (p / (n : ℚ))) ∧
    (0 < p → 0 < n → r ≠ 0 →
      calcular_parcela_price p r n = Except.ok (p * r / (1 - (1 + r) ^ (-n)))) := by
  unfold calcular_parcela_price
  refine ⟨?_, ?_, ?_, ?_⟩
  · intro h; rw [if_pos h]
  · intro hp hn; rw [if_neg (not_le.mpr hp), if_pos hn]
  · intro hp hn hr; rw [if_neg (not_le.mpr hp), if_neg (not_le.mpr hn), if_pos hr]
  · intro hp hn hr; rw [if_neg (not_le.mpr hp), if_neg (not_le.mpr hn), if_neg hr]

/-- Concrete instantiation of C1: the default loan (28000 at 2.2% per month
over 72 months) lands in the Price-formula branch. -/
theorem C1_witness :
    0 < (28000 : ℚ) ∧ 0 < (72 : ℤ) ∧ ((11 : ℚ) / 500) ≠ 0 ∧
      calcular_parcela_price 28000 (11 / 500) 72 =
        Except.ok (28000 * (11 / 500) / (1 - (1 + 11 / 500) ^ (-(72 : ℤ)))) :=
  ⟨by norm_num, by norm_num, by norm_num,
    (C1_parcela_price_contract 28000 (11 / 500) 72).2.2.2
      (by norm_num) (by norm_num) (by norm_num)⟩

/-- Claim C2 counterexample: a self-consumption fraction of 2 violates the
[0,1] precondition, yet the engine does not fail — it runs the whole loop and
returns the full 12-month sequence. -/
theorem C2_counterexample :
    ¬ (Pbad.perc_autoconsumo ≤ 1) ∧
    (simular_solar_result Pbad).isOk = true ∧
    (simular_solar Pbad).length = 12 := by
  have hlen : (simular_solar Pbad).length = 12 := by
    rw [simular_solar_length]; rfl
  have hne : ¬ ((simular_solar Pbad).isEmpty = true) := by
    simp only [List.isEmpty_iff]
    intro h0
    rw [h0] at hlen
    simp at hlen
  refine ⟨by norm_num [Pbad], ?_, hlen⟩
  unfold simular_solar_result
  rw [if_neg hne]
  rfl

/-- Claim C2 (amended): the engine performs no parameter validation at all;
for any horizon of at least one year — including records violating the spec's
preconditions — it returns the full `anos*12`-month sequence and the loop
cannot fail mid-run.  (For horizon ≤ 0 the failure happens only after the
loop, as a pandas KeyError naming a column, not the offending field.) -/
theorem C2_amended (P : SimParams) (h : 1 ≤ P.anos_simulacao) :
    simular_solar_result P = Except.ok (simular_solar P, acumuladoColumn P) ∧
    (simular_solar P).length = (P.anos_simulacao * 12).toNat := by
  have hlen := simular_solar_length P
  have hpos : 0 < (simular_solar P).length := by
    rw [hlen]; omega
  have hne : ¬ ((simular_solar P).isEmpty = true) := by
    simp only [List.isEmpty_iff]
    intro h0
    rw [h0] at hpos
    simp at hpos
  refine ⟨?_, hlen⟩
  unfold simular_solar_result
  rw [if_neg hne]

/-- Concrete instantiation of C2 (amended) at the valid scenario `P6`. -/
theorem C2_witness :
    1 ≤ P6.anos_simulacao ∧
    simular_solar_result P6 = Except.ok (simular_solar P6, acumuladoColumn P6) :=
  ⟨by norm_num [P6], (C2_amended P6 (by norm_num [P6])).1⟩

/-- Claim C3: for every parameter record the credit-ledger balance starts at
0, is ≥ 0 after every month, and across a month changes exactly by crediting
max(0, generation - selfConsumed) and then debiting min(gridDemand, balance). -/
theorem C3_credit_ledger (P : SimParams) (m : ℕ) :
    (stateAfter P 0).saldo_creditos = 0 ∧
    0 ≤ (stateAfter P m).saldo_creditos ∧
    (stateAfter P (m + 1)).saldo_creditos =
      (stateAfter P m).saldo_creditos + energia_injetada P (m + 1)
        - min (consumo_rede P)
            ((stateAfter P m).saldo_creditos + energia_injetada P (m + 1)) := by
  refine ⟨rfl, stateAfter_saldo_nonneg P m, ?_⟩
  rw [stateAfter_succ]
  rfl

/-- Claim C4 counterexample: with escalation rate 1 (≥ 0) but a negative
initial tariff, the tariff strictly decreases at the month-13 boundary, so
non-decrease does not hold for every run with escalation ≥ 0. -/
theorem C4_counterexample :
    0 ≤ Pneg.reajuste_anual ∧
    (stateAfter Pneg 13).tarifa < (stateAfter Pneg 12).tarifa := by
  constructor
  · norm_num [Pneg]
  · rw [stateAfter_tarifa, stateAfter_tarifa]
    norm_num [Pneg]

/-- Claim C4 (amended): whenever the escalation rate AND the initial tariff
and wire fee are non-negative, tariff and wire fee are non-decreasing; and for
every run each equals its initial value times `(1+escalation)^((m-1)/12)`,
escalating exactly at months 13, 25, 37, ... and never at month 1. -/
theorem C4_amended (P : SimParams) (m : ℕ) :
    (0 ≤ P.reajuste_anual → 0 ≤ P.tarifa_inicial → 0 ≤ P.fio_b_inicial →
      (stateAfter P m).tarifa ≤ (stateAfter P (m + 1)).tarifa ∧
      (stateAfter P m).fio_b ≤ (stateAfter P (m + 1)).fio_b) ∧
    (stateAfter P m).tarifa = P.tarifa_inicial * (1 + P.reajuste_anual) ^ ((m - 1) / 12) ∧
    (stateAfter P m).fio_b = P.fio_b_inicial * (1 + P.reajuste_anual) ^ ((m - 1) / 12) ∧
    (stateAfter P (m + 1)).tarifa =
      (if 1 < m + 1 ∧ (m + 1 - 1) % 12 = 0
        then (stateAfter P m).tarifa * (1 + P.reajuste_anual)
        else (stateAfter P m).tarifa) ∧
    (stateAfter P (m + 1)).fio_b =
      (if 1 < m + 1 ∧ (m + 1 - 1) % 12 = 0
        then (stateAfter P m).fio_b * (1 + P.reajuste_anual)
        else (stateAfter P m).fio_b) := by
  refine ⟨?_, stateAfter_tarifa P m, stateAfter_fio_b P m, ?_, ?_⟩
  · intro hr ht hf
    have h1 : (1 : ℚ) ≤ 1 + P.reajuste_anual := by linarith
    have hd : (m - 1) / 12 ≤ (m + 1 - 1) / 12 := by omega
    rw [stateAfter_tarifa, stateAfter_tarifa, stateAfter_fio_b, stateAfter_fio_b]
    exact ⟨mul_le_mul_of_nonneg_left (pow_le_pow_right₀ h1 hd) ht,
      mul_le_mul_of_nonneg_left (pow_le_pow_right₀ h1 hd) hf⟩
  · rw [stateAfter_succ]; rfl
  · rw [stateAfter_succ]; rfl

/-- Concrete instantiation of C4 (amended) at the documented defaults. -/
theorem C4_witness :
    0 ≤ defaultParams.reajuste_anual ∧ 0 ≤ defaultParams.tarifa_inicial ∧
    0 ≤ defaultParams.fio_b_inicial ∧
    (stateAfter defaultParams 12).tarifa ≤ (stateAfter defaultParams 13).tarifa :=
  ⟨by norm_num [defaultParams], by norm_num [defaultParams], by norm_num [defaultParams],
    ((C4_amended defaultParams 12).1 (by norm_num [defaultParams])
      (by norm_num [defaultParams]) (by norm_num [defaultParams])).1⟩

/-- Claim C5: with a down payment configured, the with-down-payment column is
a parallel column of the same length whose every entry is that month's
cumulative cash flow minus the constant down payment. -/
theorem C5_entrada_column (P : SimParams) (entrada : ℚ) (_he : 0 < entrada) :
    (acumuladoComEntrada P entrada).length = (acumuladoColumn P).length ∧
    ∀ (i : ℕ) (h1 : i < (acumuladoComEntrada P entrada).length)
      (h2 : i < (acumuladoColumn P).length),
        (acumuladoComEntrada P entrada).get ⟨i, h1⟩ =
          (acumuladoColumn P).get ⟨i, h2⟩ - entrada := by
  refine ⟨by simp [acumuladoComEntrada], ?_⟩
  intro i h1 h2
  simp only [acumuladoComEntrada] at h1 ⊢
  simp [List.get_eq_getElem, List.getElem_map]

/-- Concrete instantiation of C5 at `P6` with down payment 5000, month 1. -/
theorem C5_witness :
    0 < (5000 : ℚ) ∧
    (acumuladoComEntrada P6 5000).get ⟨0, by decide⟩ =
      (acumuladoColumn P6).get ⟨0, by decide⟩ - 5000 :=
  ⟨by norm_num, (C5_entrada_column P6 5000 (by norm_num)).2 0 (by decide) (by decide)⟩

/-- Claim C6: every record's installment field equals the configured fixed
value exactly when its month is ≤ the financing term, and 0 afterwards. -/
theorem C6_parcela (P : SimParams) (r : MonthlyRecord) (h : r ∈ simular_solar P) :
    ((r.mes : ℤ) ≤ P.meses_financiamento → r.parcela = P.valor_parcela) ∧
    (P.meses_financiamento < (r.mes : ℤ) → r.parcela = 0) := by
  have hp := mem_runAux_parcela P _ _ _ r h
  unfold parcela_m at hp
  constructor
  · intro hle; rw [hp, if_pos hle]
  · intro hlt; rw [hp, if_neg (not_le.mpr hlt)]

/-- Concrete instantiation of C6: the first record of `P6` (month 1 ≤ term 1)
carries installment 750. -/
theorem C6_witness :
    ((simStep P6 (initState P6) 1).2.mes : ℤ) ≤ P6.meses_financiamento ∧
    (simStep P6 (initState P6) 1).2.parcela = P6.valor_parcela := by
  have hmem : (simStep P6 (initState P6) 1).2 ∈ simular_solar P6 := by
    have h12 : (P6.anos_simulacao * 12).toNat = 12 := rfl
    unfold simular_solar
    rw [h12, show (12 : ℕ) = 11 + 1 from rfl, runAux]
    exact List.mem_cons_self _ _
  exact ⟨by decide, (C6_parcela P6 _ hmem).1 (by decide)⟩

/-- Claim C7: the sum of the net-cash-flow column equals the last entry of the
cumulative column, which is its running sum. -/
theorem C7_cumsum (P : SimParams) (h : 1 ≤ P.anos_simulacao) :
    (acumuladoColumn P).getLast? = some ((fluxoColumn P).sum) := by
  have hlen : (fluxoColumn P).length = (P.anos_simulacao * 12).toNat := by
    unfold fluxoColumn
    rw [List.length_map, simular_solar_length]
  have hne : fluxoColumn P ≠ [] := by
    intro h0
    rw [h0] at hlen
    simp at hlen
    omega
  unfold acumuladoColumn cumsum
  rw [cumsumAux_getLast _ 0 hne, zero_add]

/-- Concrete instantiation of C7 at the valid scenario `P6`. -/
theorem C7_witness :
    1 ≤ P6.anos_simulacao ∧
    (acumuladoColumn P6).getLast? = some ((fluxoColumn P6).sum) :=
  ⟨by norm_num [P6], C7_cumsum P6 (by norm_num [P6])⟩

/-- Claim C8: the Fio B schedule maps 2026 to 0.60 and 2029/2035 to 1.00, any
year outside the 2026-2031 table (hence every year ≥ 2031) resolves to 1, and
every returned fraction lies in [0,1]. -/
theorem C8_fioB_schedule :
    pagamento_fioB 2026 = 0.60 ∧ pagamento_fioB 2029 = 1.00 ∧ pagamento_fioB 2035 = 1.00 ∧
    (∀ ano : ℤ, ano ∉ ([2026, 2027, 2028, 2029, 2030, 2031] : List ℤ) →
      pagamento_fioB ano = 1) ∧
    (∀ ano : ℤ, 2031 ≤ ano → pagamento_fioB ano = 1) ∧
    (∀ ano : ℤ, 0 ≤ pagamento_fioB ano ∧ pagamento_fioB ano ≤ 1) := by
  refine ⟨by norm_num [pagamento_fioB], by norm_num [pagamento_fioB],
    by norm_num [pagamento_fioB], ?_, ?_, ?_⟩
  · intro ano hano
    simp only [List.mem_cons, List.not_mem_nil, or_false, not_or] at hano
    obtain ⟨h1, h2, h3, h4, h5, h6⟩ := hano
    unfold pagamento_fioB
    split_ifs <;> first | (exfalso; omega) | norm_num
  · intro ano h
    unfold pagamento_fioB
    split_ifs <;> first | (exfalso; omega) | norm_num
  · intro ano
    unfold pagamento_fioB
    split_ifs <;> norm_num

/-- Concrete instantiation of C8: 2040 is off-table and resolves to 1. -/
theorem C8_witness :
    (2040 : ℤ) ∉ ([2026, 2027, 2028, 2029, 2030, 2031] : List ℤ) ∧
    pagamento_fioB 2040 = 1 :=
  ⟨by decide, C8_fioB_schedule.2.2.2.1 2040 (by decide)⟩

/-- Claim C9 counterexample: the engine function's own default enables
seasonality, and under those defaults month 1 is scaled by 1.25, not 1.0. -/
theorem C9_counterexample :
    defaultParams.usar_sazonalidade = true ∧
    geracao_mensal defaultParams 1 ≠ geracao_base defaultParams 1 := by
  refine ⟨rfl, ?_⟩
  norm_num [geracao_mensal, geracao_base, sazonalidade_mensal, mes_do_ano,
    anos_passados, defaultParams]

/-- Claim C9 (amended): seasonality is disabled by default only at the CLI
layer (the `--sazonalidade` flag defaults to False), while the engine
function's own default enables it; whenever the flag is False the engine
applies multiplier 1.0 to every month. -/
theorem C9_amended (P : SimParams) (mes : ℕ) (h : P.usar_sazonalidade = false) :
    cli_usar_sazonalidade_default = false ∧
    geracao_mensal P mes = geracao_base P mes := by
  refine ⟨rfl, ?_⟩
  unfold geracao_mensal
  rw [h]
  simp

/-- Concrete instantiation of C9 (amended) at `P6` (seasonality off). -/
theorem C9_witness :
    P6.usar_sazonalidade = false ∧ geracao_mensal P6 3 = geracao_base P6 3 :=
  ⟨rfl, (C9_amended P6 3 rfl).2⟩

/-- Claim C10: self-consumed energy is consumption * fraction, uncapped by
generation: when generation falls below it the injected energy clamps to 0
while the savings formula still credits the full self-consumption term. -/
theorem C10_uncapped_autoconsumo (P : SimParams) (s : SimState) (mes : ℕ)
    (h : geracao_mensal P mes < P.consumo_mensal * P.perc_autoconsumo) :
    auto_consumo P = P.consumo_mensal * P.perc_autoconsumo ∧
    energia_injetada P mes = 0 ∧
    economia_m P s mes =
      P.consumo_mensal * P.perc_autoconsumo * tarifa_m P s mes
        + energia_compensada_m P s mes * preco_credito_m P s mes := by
  refine ⟨rfl, ?_, rfl⟩
  unfold energia_injetada
  have hle : geracao_mensal P mes - auto_consumo P ≤ 0 := by
    unfold auto_consumo
    linarith
  exact max_eq_left hle

/-- Concrete instantiation of C10: in `P10` month 1 generates 0 kWh yet
self-consumption is 50 kWh, and the injection clamps to 0. -/
theorem C10_witness :
    geracao_mensal P10 1 < P10.consumo_mensal * P10.perc_autoconsumo ∧
    energia_injetada P10 1 = 0 := by
  have hlt : geracao_mensal P10 1 < P10.consumo_mensal * P10.perc_autoconsumo := by
    norm_num [geracao_mensal, geracao_base, anos_passados, mes_do_ano,
      sazonalidade_mensal, P10]
  exact ⟨hlt, (C10_uncapped_autoconsumo P10 (initState P10) 1 hlt).2.1⟩
